import Mathlib

/-!
Shallow embedding of the VerdeyBackend bet-slip verification engine.

The repository contains three variants of the `api/verify-slip.js` handler:
  * `Placeholder` — the pure-placeholder verifier (`src/Api/verify-slip.js`,
    first document): four check functions whose random outcomes are modelled
    here as explicit boolean parameters.
  * `Canvas` — the canvas/pixelmatch-backed verifier (`src/unnamed/part_000`,
    second document): the same four checks, each wrapped in try/catch; the
    body of each try block is modelled as an `Except Unit _` parameter whose
    `error` case is an internally thrown exception.
  * `Sightengine` — the Sightengine-backed verifier (`src/unnamed/part_000`,
    first document): findings derived from an external response object whose
    optional fields are modelled with `Option`.

JavaScript numbers used by the Sightengine scores are modelled as rationals;
all score arithmetic in the sources is integer arithmetic on `Int`.
-/

namespace Verdey

/-- Tri-state status a finding can carry: "positive" | "negative" | "neutral". -/
inductive Status where
  | positive
  | negative
  | neutral
deriving DecidableEq, Repr

/-- One analyzer observation: `{ category, status, detail }`. -/
structure Finding where
  category : String
  status : Status
  detail : String
deriving DecidableEq, Repr

/-- `Math.max(0, Math.min(100, s))` applied to the legitimacy score. -/
def clampConfidence (s : Int) : Int :=
  max 0 (min 100 s)

/-- `confidence >= 70 ? "Likely Legitimate" : "Likely Fabricated"`. -/
def verdictOf (confidence : Int) : String :=
  if confidence ≥ 70 then "Likely Legitimate" else "Likely Fabricated"

/-- The JSON payload sent on success:
`{ verdict, confidence, findings, sportsbook }`.  `Math.round` on the
already-integral confidence is the identity and is dropped. -/
structure Report where
  verdict : String
  confidence : Int
  findings : List Finding
  sportsbook : String
deriving DecidableEq, Repr

/-- Return value of one `checkX()` helper:
`{ finding, penalty, detectedSportsbook? }`; only the template check ever
sets `detectedSportsbook`. -/
structure CheckResult where
  finding : Finding
  penalty : Int
  detectedSportsbook : Option String := none
deriving DecidableEq, Repr

/-- JavaScript `x || "Unknown"` where `x` is a string field that may be
absent (`undefined`); absent and the empty string are both falsy. -/
def jsOrUnknown : Option String → String
  | none => "Unknown"
  | some s => if s = "" then "Unknown" else s

/-- The engine loop of the handlers: for each check result in order, append
its finding and subtract its penalty from the running score, starting from
the baseline 100. -/
def runChecks (results : List CheckResult) : List Finding × Int :=
  results.foldl (fun acc r => (acc.1 ++ [r.finding], acc.2 - r.penalty)) ([], 100)

namespace Placeholder

/-- `checkMetadata()` of the placeholder verifier; `hasEditingSoftware`
stands for its `Math.random() > 0.8` draw. -/
def checkMetadata (hasEditingSoftware : Bool) : CheckResult :=
  if hasEditingSoftware then
    { finding := ⟨"Metadata", Status.negative, "Image shows signs of editing software usage."⟩
      penalty := 30 }
  else
    { finding := ⟨"Metadata", Status.neutral, "No strong metadata indicators found."⟩
      penalty := 0 }

/-- `checkCompression()` of the placeholder verifier. -/
def checkCompression (hasIrregularCompression : Bool) : CheckResult :=
  if hasIrregularCompression then
    { finding := ⟨"Compression Anomaly", Status.negative, "Irregular compression detected near critical regions."⟩
      penalty := 25 }
  else
    { finding := ⟨"Compression", Status.positive, "Compression artifacts appear uniform across image."⟩
      penalty := 0 }

/-- `checkFonts()` of the placeholder verifier. -/
def checkFonts (hasInconsistentFonts : Bool) : CheckResult :=
  if hasInconsistentFonts then
    { finding := ⟨"Font Mismatch", Status.negative, "Multiple font styles detected where uniform font is expected."⟩
      penalty := 20 }
  else
    { finding := ⟨"Font Consistency", Status.positive, "Fonts appear consistent with known sportsbook typography."⟩
      penalty := 0 }

/-- `const knownSportsbooks = ['FanDuel', 'DraftKings', 'BetMGM', 'Caesars']`. -/
def knownSportsbooks : List String :=
  ["FanDuel", "DraftKings", "BetMGM", "Caesars"]

/-- `checkTemplate()` of the placeholder verifier; `idx` stands for the
random index into `knownSportsbooks`, `matchesTemplate` for the
`Math.random() > 0.3` draw. -/
def checkTemplate (idx : Fin knownSportsbooks.length) (matchesTemplate : Bool) : CheckResult :=
  let detectedSportsbook := knownSportsbooks.get idx
  if matchesTemplate then
    { finding := ⟨"Layout Match", Status.positive, s!"Slip layout matches known {detectedSportsbook} template."⟩
      penalty := 0
      detectedSportsbook := some detectedSportsbook }
  else
    { finding := ⟨"Template Drift", Status.negative, "Spacing and layout differ from known sportsbook templates."⟩
      penalty := 25
      detectedSportsbook := some "Unknown" }

/-- The POST path of the placeholder `handler`.  The request image is a
parameter to record that the source never reads it: no branch of this
handler depends on `_image`. -/
def handler (_image : Option String)
    (hasEditingSoftware hasIrregularCompression hasInconsistentFonts : Bool)
    (templateIdx : Fin knownSportsbooks.length) (matchesTemplate : Bool) : Report :=
  let metadataCheck := checkMetadata hasEditingSoftware
  let compressionCheck := checkCompression hasIrregularCompression
  let fontCheck := checkFonts hasInconsistentFonts
  let templateCheck := checkTemplate templateIdx matchesTemplate
  let findings := [metadataCheck.finding, compressionCheck.finding,
    fontCheck.finding, templateCheck.finding]
  let legitimacyScore : Int :=
    100 - metadataCheck.penalty - compressionCheck.penalty - fontCheck.penalty
      - templateCheck.penalty
  let confidence := clampConfidence legitimacyScore
  { verdict := verdictOf confidence
    confidence := confidence
    findings := findings
    sportsbook := jsOrUnknown templateCheck.detectedSportsbook }

end Placeholder

namespace Canvas

/-- Duplicated sportsbook list of the canvas variant. -/
def knownSportsbooks : List String :=
  ["FanDuel", "DraftKings", "BetMGM", "Caesars"]

/-- `checkMetadata()` of the canvas variant.  `body` is the outcome of the
try block (EXIF inspection): `ok hasEditingSoftware`, or `error` when it
throws; the catch branch returns the inconclusive finding with penalty 0. -/
def checkMetadata (body : Except Unit Bool) : CheckResult :=
  match body with
  | Except.ok hasEditingSoftware =>
    if hasEditingSoftware then
      { finding := ⟨"Metadata", Status.negative, "Image shows signs of editing software usage."⟩
        penalty := 30 }
    else
      { finding := ⟨"Metadata", Status.neutral, "No strong metadata indicators found."⟩
        penalty := 0 }
  | Except.error _ =>
    { finding := ⟨"Metadata", Status.neutral, "Metadata analysis inconclusive."⟩
      penalty := 0 }

/-- `checkCompression()` of the canvas variant; catch gives penalty 5. -/
def checkCompression (body : Except Unit Bool) : CheckResult :=
  match body with
  | Except.ok hasIrregularCompression =>
    if hasIrregularCompression then
      { finding := ⟨"Compression Anomaly", Status.negative, "Irregular compression detected near critical regions (amounts/odds)."⟩
        penalty := 25 }
    else
      { finding := ⟨"Compression", Status.positive, "Compression artifacts appear uniform across image."⟩
        penalty := 0 }
  | Except.error _ =>
    { finding := ⟨"Compression", Status.neutral, "Compression analysis inconclusive."⟩
      penalty := 5 }

/-- `checkFonts()` of the canvas variant; catch gives the neutral
"Font Analysis" finding with penalty 5. -/
def checkFonts (body : Except Unit Bool) : CheckResult :=
  match body with
  | Except.ok hasInconsistentFonts =>
    if hasInconsistentFonts then
      { finding := ⟨"Font Mismatch", Status.negative, "Multiple font styles detected where uniform font is expected."⟩
        penalty := 20 }
    else
      { finding := ⟨"Font Consistency", Status.positive, "Fonts appear consistent with known sportsbook typography."⟩
        penalty := 0 }
  | Except.error _ =>
    { finding := ⟨"Font Analysis", Status.neutral, "Font analysis inconclusive."⟩
      penalty := 5 }

/-- `checkTemplate()` of the canvas variant; the try body yields the random
sportsbook index and the `matchesTemplate` draw, the catch branch gives the
neutral finding with penalty 10 and sportsbook "Unknown". -/
def checkTemplate (body : Except Unit (Fin knownSportsbooks.length × Bool)) : CheckResult :=
  match body with
  | Except.ok (idx, matchesTemplate) =>
    let detectedSportsbook := knownSportsbooks.get idx
    if matchesTemplate then
      { finding := ⟨"Layout Match", Status.positive, s!"Slip layout matches known {detectedSportsbook} template."⟩
        penalty := 0
        detectedSportsbook := some detectedSportsbook }
    else
      { finding := ⟨"Template Drift", Status.negative, "Spacing and layout differ from known sportsbook templates."⟩
        penalty := 25
        detectedSportsbook := some "Unknown" }
  | Except.error _ =>
    { finding := ⟨"Template Matching", Status.neutral, "Template matching inconclusive."⟩
      penalty := 10
      detectedSportsbook := some "Unknown" }

/-- The scoring body of the canvas `handler` (the code after the image
buffer has been obtained). -/
def core (metadataBody compressionBody fontsBody : Except Unit Bool)
    (templateBody : Except Unit (Fin knownSportsbooks.length × Bool)) : Report :=
  let metadataCheck := checkMetadata metadataBody
  let compressionCheck := checkCompression compressionBody
  let fontCheck := checkFonts fontsBody
  let templateCheck := checkTemplate templateBody
  let findings := [metadataCheck.finding, compressionCheck.finding,
    fontCheck.finding, templateCheck.finding]
  let legitimacyScore : Int :=
    100 - metadataCheck.penalty - compressionCheck.penalty - fontCheck.penalty
      - templateCheck.penalty
  let confidence := clampConfidence legitimacyScore
  { verdict := verdictOf confidence
    confidence := confidence
    findings := findings
    sportsbook := jsOrUnknown templateCheck.detectedSportsbook }

/-- The POST path of the canvas `handler`: with no usable image,
`Buffer.from(undefined, base64)` throws and the outer catch answers with the
500 payload whose error field is "Verification failed"; otherwise the four
checks run and the report is produced. -/
def handler (image : Option String) (metadataBody compressionBody fontsBody : Except Unit Bool)
    (templateBody : Except Unit (Fin knownSportsbooks.length × Bool)) : Except String Report :=
  match image with
  | none => Except.error "Verification failed"
  | some _ => Except.ok (core metadataBody compressionBody fontsBody templateBody)

end Canvas

namespace Sightengine

/-- The fields of the parsed Sightengine JSON response that the handler
reads.  `aiGenerated` is `data.type.ai_generated` when `data.type` is
present and carries the field, else `none`; `quality` is
`some score-field` when the `data.quality` object is present (`some none`
when the object lacks a numeric `score`); `faceCount` is
`data.faces.length`, with a missing `data.faces` behaving as 0. -/
structure ResponseData where
  aiGenerated : Option ℚ
  quality : Option (Option ℚ)
  faceCount : Nat
deriving DecidableEq

/-- `Math.round` on a nonnegative JS number: round half up. -/
def jsRound (q : ℚ) : Int :=
  ⌊q + 1 / 2⌋

/-- The AI-generation block of the Sightengine handler
(`if (data.type && data.type.ai_generated) ...`): the findings it pushes
and the penalty it subtracts.  A present score of 0 is falsy in JS, so the
whole block is skipped then. -/
def aiBlock (aiGenerated : Option ℚ) : List Finding × Int :=
  match aiGenerated with
  | none => ([], 0)
  | some aiScore =>
    if aiScore = 0 then ([], 0)
    else if aiScore > 7 / 10 then
      let pct := jsRound (aiScore * 100)
      ([⟨"AI Detection", Status.negative, s!"High probability ({pct}%) of AI-generated or heavily manipulated content."⟩], 40)
    else if aiScore > 4 / 10 then
      let pct := jsRound (aiScore * 100)
      ([⟨"AI Detection", Status.negative, s!"Moderate probability ({pct}%) of digital manipulation detected."⟩], 25)
    else
      ([⟨"AI Detection", Status.positive, "Low probability of AI generation or heavy manipulation."⟩], 0)

/-- JS `quality.score < 0.5` where the score field may be absent
(`undefined < 0.5` is false). -/
def jsScoreLtHalf : Option ℚ → Bool
  | none => false
  | some q => decide (q < 1 / 2)

/-- The image-quality block (`if (data.quality) ...`). -/
def qualityBlock (quality : Option (Option ℚ)) : List Finding × Int :=
  match quality with
  | none => ([], 0)
  | some score =>
    if jsScoreLtHalf score then
      ([⟨"Image Quality", Status.negative, "Poor image quality may indicate screenshot or re-photograph of original."⟩], 15)
    else
      ([⟨"Image Quality", Status.positive, "Image quality consistent with direct capture."⟩], 0)

/-- The faces block (`if (data.faces && data.faces.length > 0) ...`). -/
def facesBlock (faceCount : Nat) : List Finding × Int :=
  if 0 < faceCount then
    ([⟨"Content Analysis", Status.negative, "Unexpected content detected (faces found in image)."⟩], 20)
  else
    ([], 0)

/-- Sportsbook list of the Sightengine variant, which includes "Unknown". -/
def knownSportsbooks : List String :=
  ["FanDuel", "DraftKings", "BetMGM", "Caesars", "Unknown"]

/-- The placeholder layout finding always pushed by the Sightengine
handler. -/
def layoutFinding (idx : Fin knownSportsbooks.length) : Finding :=
  let detectedSportsbook := knownSportsbooks.get idx
  ⟨"Layout Analysis", Status.neutral, s!"Analyzing against {detectedSportsbook} template patterns."⟩

/-- The scoring body of the Sightengine `handler`, from the parsed response
to the success payload; `idx` is the random index into
`knownSportsbooks`. -/
def core (d : ResponseData) (idx : Fin knownSportsbooks.length) : Report :=
  let ai := aiBlock d.aiGenerated
  let qual := qualityBlock d.quality
  let faces := facesBlock d.faceCount
  let findings := ai.1 ++ qual.1 ++ faces.1 ++ [layoutFinding idx]
  let legitimacyScore : Int := 100 - ai.2 - qual.2 - faces.2
  let confidence := clampConfidence legitimacyScore
  { verdict := verdictOf confidence
    confidence := confidence
    findings := findings
    sportsbook := knownSportsbooks.get idx }

/-- The POST path of the Sightengine `handler`.  Environment credentials
are strings where the empty string stands for any falsy value (unset or
empty); `image` is the media file of the request, `response` the fetch
outcome (`error status` when `!response.ok`). -/
def handler (apiUser apiSecret : String) (image : Option String)
    (response : Except Nat ResponseData) (idx : Fin knownSportsbooks.length) :
    Except String Report :=
  if apiUser = "" ∨ apiSecret = "" then
    Except.error "Sightengine credentials not configured"
  else
    match image with
    | none => Except.error "No image file provided"
    | some _ =>
      match response with
      | Except.error status => Except.error s!"Sightengine API error: {status}"
      | Except.ok d => Except.ok (core d idx)

end Sightengine

/-! ## Helper lemmas -/

theorem clampConfidence_nonneg (s : Int) : 0 ≤ clampConfidence s :=
  le_max_left 0 _

theorem clampConfidence_le_hundred (s : Int) : clampConfidence s ≤ 100 :=
  max_le (by norm_num) (min_le_left _ _)

theorem foldl_sub_penalty (l : List CheckResult) (fs : List Finding) (s : Int) :
    l.foldl (fun acc r => (acc.1 ++ [r.finding], acc.2 - r.penalty)) (fs, s) =
      (fs ++ l.map CheckResult.finding, s - (l.map CheckResult.penalty).sum) := by
  induction l generalizing fs s with
  | nil => simp
  | cons hd tl ih =>
    simp only [List.foldl_cons, List.map_cons, List.sum_cons, ih, List.append_assoc,
      List.singleton_append]
    rw [Prod.mk.injEq]
    exact ⟨rfl, by omega⟩

theorem runChecks_eq (l : List CheckResult) :
    runChecks l = (l.map CheckResult.finding, 100 - (l.map CheckResult.penalty).sum) := by
  simpa using foldl_sub_penalty l [] 100

theorem verdict_strings_ne : "Likely Legitimate" ≠ "Likely Fabricated" := by
  decide

theorem aiBlock_length_le (o : Option ℚ) : (Sightengine.aiBlock o).1.length ≤ 1 := by
  cases o with
  | none => simp [Sightengine.aiBlock]
  | some q =>
    dsimp only [Sightengine.aiBlock]
    split_ifs <;> simp

theorem qualityBlock_length_le (q : Option (Option ℚ)) :
    (Sightengine.qualityBlock q).1.length ≤ 1 := by
  cases q with
  | none => simp [Sightengine.qualityBlock]
  | some s =>
    dsimp only [Sightengine.qualityBlock]
    split_ifs <;> simp

theorem facesBlock_length_le (n : Nat) : (Sightengine.facesBlock n).1.length ≤ 1 := by
  unfold Sightengine.facesBlock
  split_ifs <;> simp

theorem placeholder_sportsbooks_ne_empty :
    ∀ idx : Fin Placeholder.knownSportsbooks.length,
      Placeholder.knownSportsbooks.get idx ≠ "" := by
  decide

theorem canvas_sportsbooks_ne_empty :
    ∀ idx : Fin Canvas.knownSportsbooks.length,
      Canvas.knownSportsbooks.get idx ≠ "" := by
  decide

theorem sightengine_sportsbooks_ne_empty :
    ∀ idx : Fin Sightengine.knownSportsbooks.length,
      Sightengine.knownSportsbooks.get idx ≠ "" := by
  decide

/-! ## Claim theorems -/

/-- C1: whatever integer penalties the analyzers return, the clamped
confidence lies in `[0, 100]` and equals `max(0, min(100, 100 - total))`;
both the placeholder handler and the Sightengine core compute their
confidence exactly as this clamp of 100 minus the sum of their penalties. -/
theorem C1_confidence_clamped :
    (∀ total : Int,
      0 ≤ clampConfidence (100 - total) ∧ clampConfidence (100 - total) ≤ 100 ∧
      clampConfidence (100 - total) = max 0 (min 100 (100 - total))) ∧
    (∀ img m c f idx t,
      (Placeholder.handler img m c f idx t).confidence =
        max 0 (min 100 (100 - ((Placeholder.checkMetadata m).penalty
          + (Placeholder.checkCompression c).penalty
          + (Placeholder.checkFonts f).penalty
          + (Placeholder.checkTemplate idx t).penalty))) ∧
      0 ≤ (Placeholder.handler img m c f idx t).confidence ∧
      (Placeholder.handler img m c f idx t).confidence ≤ 100) ∧
    (∀ d idx,
      (Sightengine.core d idx).confidence =
        max 0 (min 100 (100 - ((Sightengine.aiBlock d.aiGenerated).2
          + (Sightengine.qualityBlock d.quality).2
          + (Sightengine.facesBlock d.faceCount).2))) ∧
      0 ≤ (Sightengine.core d idx).confidence ∧
      (Sightengine.core d idx).confidence ≤ 100) := by
  refine ⟨fun total => ⟨clampConfidence_nonneg _, clampConfidence_le_hundred _, rfl⟩,
    fun img m c f idx t => ⟨?_, clampConfidence_nonneg _, clampConfidence_le_hundred _⟩,
    fun d idx => ⟨?_, clampConfidence_nonneg _, clampConfidence_le_hundred _⟩⟩
  · show clampConfidence _ = _
    unfold clampConfidence
    congr 2
    ring
  · show clampConfidence _ = _
    unfold clampConfidence
    congr 2
    ring

/-- C2: the verdict is "Likely Legitimate" exactly when the confidence is
at least 70 and "Likely Fabricated" exactly when it is below 70, and no
other string is produced; every handler variant derives its verdict from
its confidence by this rule. -/
theorem C2_verdict_threshold :
    (∀ c : Int,
      (verdictOf c = "Likely Legitimate" ↔ 70 ≤ c) ∧
      (verdictOf c = "Likely Fabricated" ↔ c < 70) ∧
      (verdictOf c = "Likely Legitimate" ∨ verdictOf c = "Likely Fabricated")) ∧
    (∀ img m c f idx t, (Placeholder.handler img m c f idx t).verdict =
      verdictOf (Placeholder.handler img m c f idx t).confidence) ∧
    (∀ mB cB fB tB, (Canvas.core mB cB fB tB).verdict =
      verdictOf (Canvas.core mB cB fB tB).confidence) ∧
    (∀ d idx, (Sightengine.core d idx).verdict =
      verdictOf (Sightengine.core d idx).confidence) := by
  refine ⟨fun c => ?_, fun img m c f idx t => rfl, fun mB cB fB tB => rfl,
    fun d idx => rfl⟩
  by_cases h : 70 ≤ c
  · rw [verdictOf, if_pos h]
    exact ⟨by simp [h], by simp [verdict_strings_ne.symm]; omega, Or.inl rfl⟩
  · rw [verdictOf, if_neg h]
    exact ⟨by simp [verdict_strings_ne]; omega, by simp; omega, Or.inr rfl⟩

/-- C3 counterexample: the Sightengine handler is a reachable execution
path of the engine, and on a response carrying none of the type, quality
and faces fields it produces a report with a single finding, not one
finding per configured analyzer (four). -/
theorem C3_counterexample :
    (Sightengine.core ⟨none, none, 0⟩ ⟨0, by decide⟩).findings.length = 1 ∧
    ¬ (Sightengine.core ⟨none, none, 0⟩ ⟨0, by decide⟩).findings.length = 4 := by
  exact ⟨rfl, by decide⟩

/-- C3 amended: the placeholder and canvas handlers always return exactly
four findings, one per analyzer in declaration order, on every path
including inconclusive ones; the Sightengine handler always appends its
layout finding but pushes the AI, quality and faces findings only when the
corresponding response fields are present and truthy, so its findings
count varies between 1 and 4. -/
theorem C3_findings_per_analyzer :
    (∀ img m c f idx t,
      (Placeholder.handler img m c f idx t).findings =
        [(Placeholder.checkMetadata m).finding, (Placeholder.checkCompression c).finding,
         (Placeholder.checkFonts f).finding, (Placeholder.checkTemplate idx t).finding] ∧
      (Placeholder.handler img m c f idx t).findings.length = 4) ∧
    (∀ mB cB fB tB,
      (Canvas.core mB cB fB tB).findings =
        [(Canvas.checkMetadata mB).finding, (Canvas.checkCompression cB).finding,
         (Canvas.checkFonts fB).finding, (Canvas.checkTemplate tB).finding] ∧
      (Canvas.core mB cB fB tB).findings.length = 4) ∧
    (∀ d idx,
      Sightengine.layoutFinding idx ∈ (Sightengine.core d idx).findings ∧
      1 ≤ (Sightengine.core d idx).findings.length ∧
      (Sightengine.core d idx).findings.length ≤ 4) := by
  refine ⟨fun img m c f idx t => ⟨rfl, rfl⟩, fun mB cB fB tB => ⟨rfl, rfl⟩,
    fun d idx => ⟨?_, ?_, ?_⟩⟩
  · show Sightengine.layoutFinding idx ∈ _ ++ _ ++ _ ++ [Sightengine.layoutFinding idx]
    simp
  · show 1 ≤ (_ ++ _ ++ _ ++ [Sightengine.layoutFinding idx]).length
    simp only [List.length_append, List.length_singleton]
    omega
  · show (_ ++ _ ++ _ ++ [Sightengine.layoutFinding idx]).length ≤ 4
    have h1 := aiBlock_length_le d.aiGenerated
    have h2 := qualityBlock_length_le d.quality
    have h3 := facesBlock_length_le d.faceCount
    simp only [List.length_append, List.length_singleton]
    omega

/-- C4: if the try body of the canvas font-consistency analyzer throws,
the check degrades to the neutral "Font Analysis" finding with penalty 5,
and the handler still returns a complete 4-finding report (no engine-level
error), with the failed analyzer contributing exactly 5 to the deduction. -/
theorem C4_font_failure_isolated (image : String) (mB cB : Except Unit Bool)
    (tB : Except Unit (Fin Canvas.knownSportsbooks.length × Bool)) :
    (Canvas.checkFonts (Except.error ())).penalty = 5 ∧
    (Canvas.checkFonts (Except.error ())).finding.status = Status.neutral ∧
    ∃ r, Canvas.handler (some image) mB cB (Except.error ()) tB = Except.ok r ∧
      r.findings.length = 4 ∧
      r.findings.get? 2 = some (Canvas.checkFonts (Except.error ())).finding ∧
      r.confidence = clampConfidence (100 - (Canvas.checkMetadata mB).penalty
        - (Canvas.checkCompression cB).penalty - 5 - (Canvas.checkTemplate tB).penalty) :=
  ⟨rfl, rfl, Canvas.core mB cB (Except.error ()) tB, rfl, rfl, rfl, rfl⟩

/-- C5: across all three handler variants the sportsbook field of the
report equals the detected sportsbook name when the template check
matches, equals "Unknown" on a non-match or on template-check failure, and
is never the empty string (and, being a `String`, never undefined). -/
theorem C5_sportsbook_never_empty :
    (∀ img m c f idx t,
      (Placeholder.handler img m c f idx t).sportsbook =
        (if t then Placeholder.knownSportsbooks.get idx else "Unknown") ∧
      (Placeholder.handler img m c f idx t).sportsbook ≠ "") ∧
    (∀ mB cB fB tB,
      (Canvas.core mB cB fB tB).sportsbook =
        (match tB with
          | Except.ok (idx, true) => Canvas.knownSportsbooks.get idx
          | Except.ok (_, false) => "Unknown"
          | Except.error _ => "Unknown") ∧
      (Canvas.core mB cB fB tB).sportsbook ≠ "") ∧
    (∀ d idx,
      (Sightengine.core d idx).sportsbook = Sightengine.knownSportsbooks.get idx ∧
      (Sightengine.core d idx).sportsbook ≠ "") := by
  refine ⟨fun img m c f idx t => ?_, fun mB cB fB tB => ?_,
    fun d idx => ⟨rfl, sightengine_sportsbooks_ne_empty idx⟩⟩
  · have hne := placeholder_sportsbooks_ne_empty idx
    cases t with
    | true =>
      constructor
      · show jsOrUnknown (some (Placeholder.knownSportsbooks.get idx)) = _
        rw [jsOrUnknown, if_neg hne]
        simp
      · show jsOrUnknown (some (Placeholder.knownSportsbooks.get idx)) ≠ ""
        rw [jsOrUnknown, if_neg hne]
        exact hne
    | false =>
      refine ⟨rfl, ?_⟩
      show jsOrUnknown (some "Unknown") ≠ ""
      decide
  · rcases tB with e | ⟨idx, t⟩
    · refine ⟨rfl, ?_⟩
      show jsOrUnknown (some "Unknown") ≠ ""
      decide
    · have hne := canvas_sportsbooks_ne_empty idx
      cases t with
      | true =>
        constructor
        · show jsOrUnknown (some (Canvas.knownSportsbooks.get idx)) = _
          rw [jsOrUnknown, if_neg hne]
        · show jsOrUnknown (some (Canvas.knownSportsbooks.get idx)) ≠ ""
          rw [jsOrUnknown, if_neg hne]
          exact hne
      | false =>
        refine ⟨rfl, ?_⟩
        show jsOrUnknown (some "Unknown") ≠ ""
        decide

/-- C6 counterexample: the placeholder handler, given a request that
carries no image at all, does not refuse to run: it invokes all four
analyzers and returns a fabricated four-finding report with a verdict,
instead of reporting a missing-input error with zero findings. -/
theorem C6_counterexample :
    (Placeholder.handler none false false false ⟨0, by decide⟩ true).findings.length = 4 ∧
    ¬ (Placeholder.handler none false false false ⟨0, by decide⟩ true).findings.length = 0 ∧
    (Placeholder.handler none false false false ⟨0, by decide⟩ true).verdict =
      "Likely Legitimate" :=
  ⟨rfl, by decide, rfl⟩

/-- C6 amended: the Sightengine-backed handler does refuse to run on a
missing image — with configured credentials and no image it answers with
the error "No image file provided", whatever the external response would
have been, so no analyzer output enters a report; the placeholder handler
instead never reads the request image and always computes a four-finding
report. -/
theorem C6_missing_image (apiUser apiSecret : String)
    (hu : apiUser ≠ "") (hs : apiSecret ≠ "")
    (response : Except Nat Sightengine.ResponseData)
    (idx : Fin Sightengine.knownSportsbooks.length) :
    Sightengine.handler apiUser apiSecret none response idx =
      Except.error "No image file provided" ∧
    ∀ img m c f tidx t, (Placeholder.handler img m c f tidx t).findings.length = 4 := by
  constructor
  · unfold Sightengine.handler
    rw [if_neg (by simp [hu, hs])]
  · intro img m c f tidx t
    rfl

/-- C6 witness. -/
theorem C6_missing_image_witness :
    Sightengine.handler "user" "secret" none (Except.ok ⟨none, none, 0⟩) ⟨0, by decide⟩ =
      Except.error "No image file provided" :=
  (C6_missing_image "user" "secret" (by decide) (by decide)
    (Except.ok ⟨none, none, 0⟩) ⟨0, by decide⟩).1

/-- C7 counterexample: an AI score of exactly 0 is at most 0.4, yet the
Sightengine AI block produces no finding at all for it (the JS truthiness
guard on `data.type.ai_generated` skips the whole check), so a score at
most 0.4 does not always yield a positive finding. -/
theorem C7_counterexample :
    ((0 : ℚ) ≤ 4 / 10) ∧
    Sightengine.aiBlock (some 0) = ([], 0) ∧
    (Sightengine.aiBlock (some 0)).1.map Finding.status ≠ [Status.positive] := by
  have h : Sightengine.aiBlock (some 0) = ([], 0) := by
    dsimp only [Sightengine.aiBlock]
    rw [if_pos rfl]
  refine ⟨by norm_num, h, ?_⟩
  rw [h]
  decide

/-- C7 amended: for a present nonzero AI score the two-tier banding holds
exactly as claimed — above 0.7 a negative finding with penalty 40, in
(0.4, 0.7] a negative finding with penalty 25, at most 0.4 a positive
finding with penalty 0; when the score is exactly 0 or the field is
missing, the block is skipped and produces no finding and no penalty. -/
theorem C7_ai_banding (s : ℚ) (hs : s ≠ 0) :
    (Sightengine.aiBlock (some s)).2 =
      (if s > 7 / 10 then 40 else if s > 4 / 10 then 25 else 0) ∧
    (Sightengine.aiBlock (some s)).1.map Finding.status =
      [if s > 7 / 10 then Status.negative
       else if s > 4 / 10 then Status.negative else Status.positive] ∧
    Sightengine.aiBlock none = ([], 0) ∧
    Sightengine.aiBlock (some 0) = ([], 0) := by
  have h0 : Sightengine.aiBlock (some 0) = ([], 0) := by
    dsimp only [Sightengine.aiBlock]
    rw [if_pos rfl]
  refine ⟨?_, ?_, rfl, h0⟩ <;>
  · dsimp only [Sightengine.aiBlock]
    rw [if_neg hs]
    split_ifs <;> simp

/-- C7 witness. -/
theorem C7_ai_banding_witness : (Sightengine.aiBlock (some (1 / 2))).2 = 25 := by
  have h := (C7_ai_banding (1 / 2) (by norm_num)).1
  rw [h, if_neg (by norm_num), if_pos (by norm_num)]

/-- C8: the engine loop is order-insensitive in its numeric outcome — for
any two orderings of the same multiset of check results, the clamped
confidence and hence the verdict coincide, while the findings sequence
follows the given order; the placeholder handler is an instance of this
loop over its four checks in declaration order. -/
theorem C8_order_insensitive (l₁ l₂ : List CheckResult) (h : l₁.Perm l₂) :
    clampConfidence (runChecks l₁).2 = clampConfidence (runChecks l₂).2 ∧
    verdictOf (clampConfidence (runChecks l₁).2) =
      verdictOf (clampConfidence (runChecks l₂).2) ∧
    (runChecks l₁).1 = l₁.map CheckResult.finding ∧
    ∀ img m c f idx t,
      (Placeholder.handler img m c f idx t).confidence =
        clampConfidence (runChecks [Placeholder.checkMetadata m,
          Placeholder.checkCompression c, Placeholder.checkFonts f,
          Placeholder.checkTemplate idx t]).2 ∧
      (Placeholder.handler img m c f idx t).findings =
        (runChecks [Placeholder.checkMetadata m, Placeholder.checkCompression c,
          Placeholder.checkFonts f, Placeholder.checkTemplate idx t]).1 := by
  have hsum : (l₁.map CheckResult.penalty).sum = (l₂.map CheckResult.penalty).sum :=
    (h.map CheckResult.penalty).sum_eq
  have hconf : clampConfidence (runChecks l₁).2 = clampConfidence (runChecks l₂).2 := by
    rw [runChecks_eq, runChecks_eq]
    simp only [hsum]
  refine ⟨hconf, by rw [hconf], by rw [runChecks_eq], fun img m c f idx t => ⟨?_, rfl⟩⟩
  show clampConfidence _ = clampConfidence (runChecks _).2
  rw [runChecks_eq]
  simp only [List.map_cons, List.map_nil, List.sum_cons, List.sum_nil]
  congr 1
  ring

/-- C8 witness. -/
theorem C8_order_insensitive_witness :
    clampConfidence (runChecks [Placeholder.checkMetadata true, Placeholder.checkFonts true]).2 =
      clampConfidence (runChecks [Placeholder.checkFonts true, Placeholder.checkMetadata true]).2 :=
  (C8_order_insensitive _ _
    (List.Perm.swap (Placeholder.checkFonts true) (Placeholder.checkMetadata true) [])).1

/-- C9: in the placeholder verifier every analyzer draws its penalty from
a two-element set ({0,30}, {0,25}, {0,20}, {0,25}), the summed penalty
lies in [0, 100] on every path, and the reported confidence equals exactly
100 minus the summed penalty — the clamp is the identity on every
reachable execution. -/
theorem C9_placeholder_penalties (img : Option String) (m c f : Bool)
    (idx : Fin Placeholder.knownSportsbooks.length) (t : Bool) :
    ((Placeholder.checkMetadata m).penalty = 0 ∨ (Placeholder.checkMetadata m).penalty = 30) ∧
    ((Placeholder.checkCompression c).penalty = 0 ∨ (Placeholder.checkCompression c).penalty = 25) ∧
    ((Placeholder.checkFonts f).penalty = 0 ∨ (Placeholder.checkFonts f).penalty = 20) ∧
    ((Placeholder.checkTemplate idx t).penalty = 0 ∨ (Placeholder.checkTemplate idx t).penalty = 25) ∧
    0 ≤ (Placeholder.checkMetadata m).penalty + (Placeholder.checkCompression c).penalty
      + (Placeholder.checkFonts f).penalty + (Placeholder.checkTemplate idx t).penalty ∧
    (Placeholder.checkMetadata m).penalty + (Placeholder.checkCompression c).penalty
      + (Placeholder.checkFonts f).penalty + (Placeholder.checkTemplate idx t).penalty ≤ 100 ∧
    (Placeholder.handler img m c f idx t).confidence =
      100 - ((Placeholder.checkMetadata m).penalty + (Placeholder.checkCompression c).penalty
        + (Placeholder.checkFonts f).penalty + (Placeholder.checkTemplate idx t).penalty) := by
  have hm : (Placeholder.checkMetadata m).penalty = if m then 30 else 0 := by
    cases m <;> rfl
  have hc : (Placeholder.checkCompression c).penalty = if c then 25 else 0 := by
    cases c <;> rfl
  have hf : (Placeholder.checkFonts f).penalty = if f then 20 else 0 := by
    cases f <;> rfl
  have ht : (Placeholder.checkTemplate idx t).penalty = if t then 0 else 25 := by
    cases t <;> rfl
  have hconf : (Placeholder.handler img m c f idx t).confidence =
      clampConfidence (100 - (Placeholder.checkMetadata m).penalty
        - (Placeholder.checkCompression c).penalty - (Placeholder.checkFonts f).penalty
        - (Placeholder.checkTemplate idx t).penalty) := rfl
  rw [hconf, hm, hc, hf, ht, clampConfidence]
  split_ifs <;> refine ⟨by omega, by omega, by omega, by omega, by omega, by omega, by omega⟩

/-- C10: in the Sightengine verifier two checks beyond the four-analyzer
table also reduce the score — a present quality score below 0.5 subtracts
15 with a negative "Image Quality" finding while any other present quality
object yields a positive finding and no deduction, and at least one
detected face subtracts 20 with a negative "Content Analysis" finding;
these blocks feed the report findings and its clamped confidence. -/
theorem C10_quality_faces (d : Sightengine.ResponseData)
    (idx : Fin Sightengine.knownSportsbooks.length) :
    (∀ q : ℚ, d.quality = some (some q) →
      (q < 1 / 2 → Sightengine.qualityBlock d.quality =
        ([⟨"Image Quality", Status.negative, "Poor image quality may indicate screenshot or re-photograph of original."⟩], 15)) ∧
      (¬ q < 1 / 2 → Sightengine.qualityBlock d.quality =
        ([⟨"Image Quality", Status.positive, "Image quality consistent with direct capture."⟩], 0))) ∧
    (0 < d.faceCount → Sightengine.facesBlock d.faceCount =
      ([⟨"Content Analysis", Status.negative, "Unexpected content detected (faces found in image)."⟩], 20)) ∧
    (d.faceCount = 0 → Sightengine.facesBlock d.faceCount = ([], 0)) ∧
    (Sightengine.core d idx).findings =
      (Sightengine.aiBlock d.aiGenerated).1 ++ (Sightengine.qualityBlock d.quality).1
        ++ (Sightengine.facesBlock d.faceCount).1 ++ [Sightengine.layoutFinding idx] ∧
    (Sightengine.core d idx).confidence =
      clampConfidence (100 - (Sightengine.aiBlock d.aiGenerated).2
        - (Sightengine.qualityBlock d.quality).2 - (Sightengine.facesBlock d.faceCount).2) := by
  refine ⟨fun q hq => ⟨fun hlt => ?_, fun hge => ?_⟩, fun hfaces => ?_, fun hzero => ?_,
    rfl, rfl⟩
  · rw [hq]
    dsimp only [Sightengine.qualityBlock]
    rw [if_pos (by simp only [Sightengine.jsScoreLtHalf, decide_eq_true_eq]; exact hlt)]
  · rw [hq]
    dsimp only [Sightengine.qualityBlock]
    rw [if_neg (by simp only [Sightengine.jsScoreLtHalf, decide_eq_true_eq]; exact hge)]
  · dsimp only [Sightengine.facesBlock]
    rw [if_pos hfaces]
  · dsimp only [Sightengine.facesBlock]
    rw [if_neg (by omega)]

/-- C10 witness. -/
theorem C10_quality_faces_witness :
    Sightengine.qualityBlock (some (some (1 / 4))) =
      ([⟨"Image Quality", Status.negative, "Poor image quality may indicate screenshot or re-photograph of original."⟩], 15) ∧
    Sightengine.facesBlock 1 =
      ([⟨"Content Analysis", Status.negative, "Unexpected content detected (faces found in image)."⟩], 20) := by
  have h := C10_quality_faces ⟨none, some (some (1 / 4)), 1⟩ ⟨0, by decide⟩
  exact ⟨(h.1 (1 / 4) rfl).1 (by norm_num), h.2.1 (by norm_num)⟩

end Verdey
